import Mathlib

set_option maxHeartbeats 1000000

/-!
Verification development for the selection/edit controller of the
annotorious image annotator (src/ImageAnnotator.jsx).

The controller component is embedded shallowly: React state becomes an
explicit record, every handler becomes a pure function from a state (plus
a fresh-object counter) to a new state together with the ordered list of
side effects it performs (calls into the visual layer and consumer event
callbacks).  JavaScript object identity is modelled by a `ref` field on
values; cloning allocates a fresh `ref` from the counter.  Promise
resolution of the two deferred public operations is modelled by a
`resolved` flag on their outcome.
-/

/-- Opaque geometry/region descriptor anchored by an annotation.  The
`ref` field models JavaScript object identity (two structurally equal
targets may still be distinct heap objects); `value` models the
serializable content. -/
structure Target where
  ref : Nat
  value : Nat
  deriving DecidableEq, Repr

/-- Modelled from the spec: the external Annotation value type
(recogito-client-core, §3 of the spec) — an immutable-by-convention
record with an identifier, a target, an `isSelection` draft flag and a
`readOnly` flag; `body` stands for the remaining serializable content.
The `ref` field models JavaScript object identity. -/
structure Annotation where
  ref : Nat
  id : Nat
  target : Target
  isSelection : Bool
  readOnly : Bool
  body : Nat
  deriving DecidableEq, Repr

/-- Modelled from the spec: `clone()` returns a deep structural copy as a
fresh object (fresh `ref` for the copy and its target), leaving every
content field unchanged. -/
def Annotation.clone (a : Annotation) (n : Nat) : Annotation :=
  { a with ref := n, target := { a.target with ref := n } }

/-- Modelled from the spec: `clone({ target })` returns a deep copy with
the target replaced by the supplied one. -/
def Annotation.cloneWithTarget (a : Annotation) (t : Target) (n : Nat) : Annotation :=
  { a with ref := n, target := { t with ref := n } }

/-- Modelled from the spec: promotion of a draft selection to a full
annotation — the committed copy has `isSelection = false`. -/
def Annotation.toAnnotation (a : Annotation) : Annotation :=
  { a with isSelection := false }

/-- Modelled from the spec: structural equality of two annotation values,
ignoring object identity. -/
def Annotation.isEqual (a b : Annotation) : Bool :=
  a.id == b.id && a.target.value == b.target.value &&
    a.isSelection == b.isSelection && a.readOnly == b.readOnly && a.body == b.body

/-- The React component state of ImageAnnotator (src lines 9-21). -/
structure ControllerState where
  selectedAnnotation : Option Annotation
  selectedDOMElement : Option Nat
  modifiedTarget : Option Target
  editorDisabled : Bool
  beforeHeadlessModify : Option Annotation
  deriving DecidableEq, Repr

/-- Embeds `clearState` (src lines 24-29): resets the four selection
fields, leaving `editorDisabled` untouched. -/
def clearState (s : ControllerState) : ControllerState :=
  { s with selectedAnnotation := none, selectedDOMElement := none,
           modifiedTarget := none, beforeHeadlessModify := none }

/-- Second argument handed to the created/updated consumer callback in
`onCreateOrUpdateAnnotation`: either the curried id-override closure
(closing over the committed annotation) or a clone of the previous
value. -/
inductive SecondArg where
  | idOverride (a : Annotation)
  | previousClone (p : Annotation)
  deriving DecidableEq, Repr

/-- Side effects performed by the controller, in order: imperative calls
into the annotation layer (`layer...`) and consumer-supplied lifecycle
callbacks (`evt...`). -/
inductive Effect where
  | layerDeselect
  | layerAddOrUpdate (a : Annotation) (previous : Option Annotation)
  | layerRemove (a : Annotation)
  | layerOverrideId (oldId : Nat) (newId : Nat)
  | evtSelectionCreated (a : Annotation)
  | evtAnnotationSelected (a : Annotation)
  | evtCancelSelected (a : Annotation)
  | evtSelectionTargetChanged (t : Target)
  | evtAnnotationCreated (a : Annotation) (second : SecondArg)
  | evtAnnotationUpdated (a : Annotation) (second : SecondArg)
  | evtAnnotationDeleted (a : Annotation)
  | evtMouseEnter (a : Annotation)
  | evtMouseLeave (a : Annotation)
  deriving DecidableEq, Repr

/-- Result of an event handler: next state, next fresh-object counter and
the ordered effects performed. -/
structure Step where
  state : ControllerState
  fresh : Nat
  effects : List Effect
  deriving DecidableEq, Repr

/-- Result of one of the promise-returning public operations; `resolved`
records whether the promise was resolved by the operation. -/
structure Outcome where
  state : ControllerState
  fresh : Nat
  effects : List Effect
  resolved : Bool
  deriving DecidableEq, Repr

/-- View of a handler step as a resolved promise outcome. -/
def Step.resolvedOutcome (st : Step) : Outcome :=
  { state := st.state, fresh := st.fresh, effects := st.effects, resolved := true }

/-- Payload of an annotation-layer `select` event (src line 68). -/
structure SelectEvent where
  annotation : Option Annotation
  element : Option Nat
  skipEvent : Bool
  deriving DecidableEq, Repr

/-- Which consumer handler `onCreateOrUpdateAnnotation` dispatches to
(the JavaScript passes the prop name as a string). -/
inductive Method where
  | created
  | updated
  deriving DecidableEq, Repr

/-- Merge step of `onCreateOrUpdateAnnotation` (src lines 164-165): the
already promoted annotation is cloned with the pending modified target
when one is stored, otherwise cloned as-is. -/
def mergeOf (s : ControllerState) (a0 : Annotation) (n : Nat) : Annotation :=
  match s.modifiedTarget with
  | some t => Annotation.cloneWithTarget a0 t n
  | none => Annotation.clone a0 n

/-- Embeds `onCreateOrUpdateAnnotation` (src lines 160-179): promote a
draft argument, merge the pending target, clear the state, then deselect
in the layer, upsert the result, and fire the created/updated callback —
with `previous.clone()` as second argument when a previous value was
supplied, else with the id-override closure over the result. -/
def onCreateOrUpdateAnnotation (method : Method) (s : ControllerState) (n : Nat)
    (ann : Annotation) (previous : Option Annotation) : Step :=
  let a0 := if ann.isSelection then ann.toAnnotation else ann
  let a := mergeOf s a0 n
  match previous with
  | some p =>
      let pc := Annotation.clone p (n + 1)
      let evt :=
        match method with
        | Method.created => Effect.evtAnnotationCreated a (SecondArg.previousClone pc)
        | Method.updated => Effect.evtAnnotationUpdated a (SecondArg.previousClone pc)
      { state := clearState s, fresh := n + 2,
        effects := [Effect.layerDeselect, Effect.layerAddOrUpdate a previous, evt] }
  | none =>
      let evt :=
        match method with
        | Method.created => Effect.evtAnnotationCreated a (SecondArg.idOverride a)
        | Method.updated => Effect.evtAnnotationUpdated a (SecondArg.idOverride a)
      { state := clearState s, fresh := n + 1,
        effects := [Effect.layerDeselect, Effect.layerAddOrUpdate a previous, evt] }

/-- Embeds `onCancelAnnotation` (src lines 188-194): deselect in the
layer only when the editor is enabled, then fire the cancelled callback
(always — the source's indentation artifact), then clear the state. -/
def onCancelAnnotation (s : ControllerState) (n : Nat) (ann : Annotation) : Step :=
  { state := clearState s, fresh := n,
    effects := (if s.editorDisabled then [] else [Effect.layerDeselect]) ++
      [Effect.evtCancelSelected ann] }

/-- Embeds `onDeleteAnnotation` (src lines 181-185): clear state, remove
from the layer, fire the deleted callback with the argument itself. -/
def onDeleteAnnotation (s : ControllerState) (n : Nat) (ann : Annotation) : Step :=
  { state := clearState s, fresh := n,
    effects := [Effect.layerRemove ann, Effect.evtAnnotationDeleted ann] }

/-- Embeds `headlessCancel` (src lines 54-59): on the Escape key (key
code 27) clear the state and deselect in the layer; other keys do
nothing. -/
def headlessCancel (s : ControllerState) (n : Nat) (which : Nat) : Step :=
  if which == 27 then
    { state := clearState s, fresh := n, effects := [Effect.layerDeselect] }
  else
    { state := s, fresh := n, effects := [] }

/-- Embeds `overrideAnnotationId` (src lines 142-153): when a selection
is open, clear the state first, then apply the id override in the
layer. -/
def overrideAnnotationId (s : ControllerState) (n : Nat) (orig : Annotation)
    (forcedId : Nat) : Step :=
  if s.selectedAnnotation.isSome then
    { state := clearState s, fresh := n,
      effects := [Effect.layerOverrideId orig.id forcedId] }
  else
    { state := s, fresh := n, effects := [Effect.layerOverrideId orig.id forcedId] }

/-- Embeds `onNormalSelect` (src lines 67-114): selection handling with
the editor enabled.  A non-null annotation replaces the selection (after
firing the cancelled callback for a different previous selection); a
null annotation deselects, firing the cancelled callback when something
was selected. -/
def onNormalSelect (s : ControllerState) (n : Nat) (evt : SelectEvent) : Step :=
  match evt.annotation with
  | some ann =>
      let sel : ControllerState :=
        { s with selectedAnnotation := some ann, selectedDOMElement := evt.element,
                 modifiedTarget := none, beforeHeadlessModify := none }
      let selStep : Step :=
        if evt.skipEvent then { state := sel, fresh := n, effects := [] }
        else if ann.isSelection then
          { state := sel, fresh := n + 1,
            effects := [Effect.evtSelectionCreated ( Annotation.clone ann n)] }
        else
          { state := sel, fresh := n + 1,
            effects := [Effect.evtAnnotationSelected ( Annotation.clone ann n)] }
      match s.selectedAnnotation with
      | some prev =>
          if Annotation.isEqual prev ann then selStep
          else { selStep with effects := Effect.evtCancelSelected prev :: selStep.effects }
      | none => selStep
  | none =>
      match s.selectedAnnotation with
      | some prev =>
          { state := clearState s, fresh := n, effects := [Effect.evtCancelSelected prev] }
      | none => { state := clearState s, fresh := n, effects := [] }

/-- Embeds `handleUpdateTarget` (src lines 125-130): store the element
and the modified target, then fire the target-changed callback with a
deep JSON copy of the target. -/
def handleUpdateTarget (s : ControllerState) (n : Nat) (element : Option Nat)
    (t : Target) : Step :=
  { state := { s with selectedDOMElement := element, modifiedTarget := some t },
    fresh := n + 1,
    effects := [Effect.evtSelectionTargetChanged { t with ref := n }] }

/-- Embeds `handleMouseEnter` (src lines 132-133). -/
def handleMouseEnter (s : ControllerState) (n : Nat) (ann : Annotation) : Step :=
  { state := s, fresh := n + 1, effects := [Effect.evtMouseEnter ( Annotation.clone ann n)] }

/-- Embeds `handleMouseLeave` (src lines 135-136). -/
def handleMouseLeave (s : ControllerState) (n : Nat) (ann : Annotation) : Step :=
  { state := s, fresh := n + 1, effects := [Effect.evtMouseLeave ( Annotation.clone ann n)] }

/-- Embeds `saveSelected` (src lines 248-272): commit the current
selection — create for a draft, update with the recorded headless
baseline or the selection itself as previous value, or degrade to cancel
when nothing changed; a no-op resolving immediately without a
selection. -/
def saveSelected (s : ControllerState) (n : Nat) : Outcome :=
  match s.selectedAnnotation with
  | some a =>
      if a.isSelection then
        Step.resolvedOutcome
          ( onCreateOrUpdateAnnotation Method.created s n a.toAnnotation (some a))
      else
        match s.beforeHeadlessModify with
        | some b =>
            Step.resolvedOutcome ( onCreateOrUpdateAnnotation Method.updated s n a (some b))
        | none =>
            match s.modifiedTarget with
            | some _ =>
                Step.resolvedOutcome ( onCreateOrUpdateAnnotation Method.updated s n a (some a))
            | none => Step.resolvedOutcome ( onCancelAnnotation s n a)
  | none => { state := s, fresh := n, effects := [], resolved := true }

/-- Embeds `updateSelected` (src lines 296-312): with a selection, either
commit the supplied annotation immediately, or store it while recording
the first-write-wins headless baseline; without a selection nothing
happens and — faithfully to the source — the promise is never resolved. -/
def updateSelected (s : ControllerState) (n : Nat) (ann : Annotation)
    (saveImmediately : Bool) : Outcome :=
  match s.selectedAnnotation with
  | some sel =>
      if saveImmediately then
        if sel.isSelection then
          Step.resolvedOutcome ( onCreateOrUpdateAnnotation Method.created s n ann none)
        else
          Step.resolvedOutcome ( onCreateOrUpdateAnnotation Method.updated s n ann (some sel))
      else
        { state :=
            { s with selectedAnnotation := some ann,
                     beforeHeadlessModify :=
                       match s.beforeHeadlessModify with
                       | some b => some b
                       | none => some sel },
          fresh := n, effects := [], resolved := true }
  | none => { state := s, fresh := n, effects := [], resolved := false }

/-- Embeds `cancelSelected` (src lines 206-210). -/
def cancelSelected (s : ControllerState) (n : Nat) : Step :=
  match s.selectedAnnotation with
  | some a => onCancelAnnotation s n a
  | none => { state := s, fresh := n, effects := [] }

/-- Embeds `onHeadlessSelect` (src lines 117-123): save the current
selection, then run the normal selection handler on the resulting
state. -/
def onHeadlessSelect (s : ControllerState) (n : Nat) (evt : SelectEvent) : Step :=
  let o := saveSelected s n
  let st := onNormalSelect o.state o.fresh evt
  { state := st.state, fresh := st.fresh, effects := o.effects ++ st.effects }

/-- Embeds `handleSelect` (src lines 61-64). -/
def handleSelect (s : ControllerState) (n : Nat) (evt : SelectEvent) : Step :=
  if s.editorDisabled then onHeadlessSelect s n evt else onNormalSelect s n evt

/-- Embeds the `disableEditor` setter (src lines 216-225), restricted to
its state change. -/
def setDisableEditor (s : ControllerState) (disabled : Bool) : ControllerState :=
  { s with editorDisabled := disabled }

/-- Recognizes the annotation-updated consumer callback. -/
def isUpdatedEvt : Effect → Bool
  | Effect.evtAnnotationUpdated _ _ => true
  | _ => false

/-- Recognizes the annotation-created consumer callback. -/
def isCreatedEvt : Effect → Bool
  | Effect.evtAnnotationCreated _ _ => true
  | _ => false

/-- Recognizes the selection-cancelled consumer callback. -/
def isCancelEvt : Effect → Bool
  | Effect.evtCancelSelected _ => true
  | _ => false

/-- Recognizes the two selection callbacks (selection-created for drafts,
selection-opened for existing annotations). -/
def isSelectionEvt : Effect → Bool
  | Effect.evtSelectionCreated _ => true
  | Effect.evtAnnotationSelected _ => true
  | _ => false

/-- Recognizes an annotation-created callback whose second argument is
the id-override closure. -/
def createdWithIdOverride : Effect → Bool
  | Effect.evtAnnotationCreated _ (SecondArg.idOverride _) => true
  | _ => false

/-- Object identities reachable from an annotation value. -/
def annRefs (a : Annotation) : List Nat := [a.ref, a.target.ref]

/-- Object identities reachable from a second callback argument. -/
def secondArgRefs : SecondArg → List Nat
  | SecondArg.idOverride a => annRefs a
  | SecondArg.previousClone p => annRefs p

/-- Object identities handed to the consumer by a lifecycle callback
effect; layer calls contribute nothing. -/
def eventRefs : Effect → List Nat
  | Effect.evtSelectionCreated a => annRefs a
  | Effect.evtAnnotationSelected a => annRefs a
  | Effect.evtCancelSelected a => annRefs a
  | Effect.evtSelectionTargetChanged t => [t.ref]
  | Effect.evtAnnotationCreated a sa => annRefs a ++ secondArgRefs sa
  | Effect.evtAnnotationUpdated a sa => annRefs a ++ secondArgRefs sa
  | Effect.evtAnnotationDeleted a => annRefs a
  | Effect.evtMouseEnter a => annRefs a
  | Effect.evtMouseLeave a => annRefs a
  | _ => []

/-- Holds when every lifecycle callback in the effect list hands the
consumer only objects allocated at or after counter `n` — that is, only
freshly cloned values, never a pre-existing shared reference. -/
def eventsCloned (n : Nat) (effs : List Effect) : Bool :=
  effs.all fun e => ( eventRefs e).all fun r => Nat.ble n r

/-! Concrete fixtures used by the closed counterexamples and witnesses. -/

/-- Sample target with object identity 0. -/
def tgt1 : Target := { ref := 0, value := 1 }

/-- Sample target with object identity 1. -/
def tgt2 : Target := { ref := 1, value := 2 }

/-- A draft selection (object identity 2). -/
def draft1 : Annotation :=
  { ref := 2, id := 7, target := tgt1, isSelection := true, readOnly := false, body := 1 }

/-- An existing, committed annotation (object identity 3). -/
def ann1 : Annotation :=
  { ref := 3, id := 8, target := tgt1, isSelection := false, readOnly := false, body := 1 }

/-- A second, different committed annotation (object identity 4). -/
def ann2 : Annotation :=
  { ref := 4, id := 9, target := tgt2, isSelection := false, readOnly := false, body := 2 }

/-- Controller state with nothing selected, editor enabled. -/
def stIdle : ControllerState :=
  { selectedAnnotation := none, selectedDOMElement := none, modifiedTarget := none,
    editorDisabled := false, beforeHeadlessModify := none }

/-- Controller state with the draft selected. -/
def stDraft : ControllerState :=
  { stIdle with selectedAnnotation := some draft1, selectedDOMElement := some 5 }

/-- Controller state with the committed annotation selected, editor enabled. -/
def stAnn1 : ControllerState :=
  { stIdle with selectedAnnotation := some ann1 }

/-- Headless variant of `stAnn1`. -/
def stAnn1Headless : ControllerState :=
  { stAnn1 with editorDisabled := true }

/-- Cloning preserves the draft flag. -/
theorem clone_isSelection (a : Annotation) (n : Nat) :
    ( Annotation.clone a n).isSelection = a.isSelection := rfl

/-- Cloning with a replaced target preserves the draft flag. -/
theorem cloneWithTarget_isSelection (a : Annotation) (t : Target) (n : Nat) :
    ( Annotation.cloneWithTarget a t n).isSelection = a.isSelection := rfl

/-- A clone is structurally equal to its original. -/
theorem clone_isEqual (a : Annotation) (n : Nat) :
    Annotation.isEqual ( Annotation.clone a n) a = true := by
  simp [ Annotation.clone, Annotation.isEqual]

/-- C1 counterexample: committing the draft through `saveSelected` fires
the annotation-created callback, but its second argument is a clone of
the original draft (the source passes the selection itself as `previous`
at line 254), not the id-override callback — so no created callback in
the run carries the id-override closure. -/
theorem c1_counterexample_saveSelected_draft :
    ( saveSelected stDraft 10).effects.any isCreatedEvt = true ∧
    ( saveSelected stDraft 10).effects.any createdWithIdOverride = false := by
  decide

/-- C1 amended: a draft commit promotes the draft, upserts the promoted
clone in the layer, and fires the created callback — whose second
argument is a clone of the original draft when the commit enters through
`saveSelected`, and the id-override closure only when no previous value
is supplied, as in `updateSelected(x, true)` on a draft selection. -/
theorem c1_draft_commit_created_event (s : ControllerState) (n : Nat) (a x : Annotation)
    (hs : s.selectedAnnotation = some a) (hd : a.isSelection = true) :
    ( saveSelected s n).effects =
        [Effect.layerDeselect,
         Effect.layerAddOrUpdate (mergeOf s a.toAnnotation n) (some a),
         Effect.evtAnnotationCreated (mergeOf s a.toAnnotation n)
           (SecondArg.previousClone ( Annotation.clone a (n + 1)))] ∧
    (mergeOf s a.toAnnotation n).isSelection = false ∧
    ( saveSelected s n).state = clearState s ∧
    ( updateSelected s n x true).effects =
        [Effect.layerDeselect,
         Effect.layerAddOrUpdate (mergeOf s (if x.isSelection then x.toAnnotation else x) n) none,
         Effect.evtAnnotationCreated (mergeOf s (if x.isSelection then x.toAnnotation else x) n)
           (SecondArg.idOverride (mergeOf s (if x.isSelection then x.toAnnotation else x) n))] := by
  refine ⟨?_, ?_, ?_, ?_⟩ <;>
    cases hmt : s.modifiedTarget <;>
      simp [saveSelected, updateSelected, onCreateOrUpdateAnnotation, hs, hd, hmt,
        Annotation.toAnnotation, Step.resolvedOutcome, mergeOf,
        clone_isSelection, cloneWithTarget_isSelection]

/-- C1 witness: the amended statement applied to the concrete draft
state. -/
theorem c1_draft_commit_created_event_instance :
    ( saveSelected stDraft 10).effects =
      [Effect.layerDeselect,
       Effect.layerAddOrUpdate (mergeOf stDraft ( Annotation.toAnnotation draft1) 10)
         (some draft1),
       Effect.evtAnnotationCreated (mergeOf stDraft ( Annotation.toAnnotation draft1) 10)
         (SecondArg.previousClone ( Annotation.clone draft1 11))] :=
  (c1_draft_commit_created_event stDraft 10 draft1 ann2 (by decide) (by decide)).1

/-- C2: committing an existing, non-draft selection with no pending
modified target and no recorded headless baseline degrades to the cancel
transition — the cancelled callback fires (after a layer deselect when
the editor is enabled) and no updated callback fires. -/
theorem c2_nochange_commit_degrades_to_cancel (s : ControllerState) (n : Nat) (a : Annotation)
    (hs : s.selectedAnnotation = some a) (hd : a.isSelection = false)
    (hb : s.beforeHeadlessModify = none) (hm : s.modifiedTarget = none) :
    saveSelected s n =
      { state := clearState s, fresh := n,
        effects := (if s.editorDisabled then [] else [Effect.layerDeselect]) ++
          [Effect.evtCancelSelected a],
        resolved := true } ∧
    ( saveSelected s n).effects.any isUpdatedEvt = false ∧
    ( saveSelected s n).effects.any isCancelEvt = true := by
  have he : saveSelected s n =
      { state := clearState s, fresh := n,
        effects := (if s.editorDisabled then [] else [Effect.layerDeselect]) ++
          [Effect.evtCancelSelected a],
        resolved := true } := by
    simp [saveSelected, hs, hd, hb, hm, onCancelAnnotation, Step.resolvedOutcome]
  refine ⟨he, ?_, ?_⟩ <;> rw [he] <;>
    cases hed : s.editorDisabled <;> simp [isUpdatedEvt, isCancelEvt]

/-- C2 witness: the headless no-change commit on the concrete state fires
the cancelled callback and no updated callback. -/
theorem c2_nochange_commit_instance :
    ( saveSelected stAnn1Headless 10).effects.any isUpdatedEvt = false :=
  (c2_nochange_commit_degrades_to_cancel stAnn1Headless 10 ann1
    (by decide) (by decide) (by decide) (by decide)).2.1

/-- State with the committed annotation selected and a pending modified
target. -/
def stAnn1Target : ControllerState := { stAnn1 with modifiedTarget := some tgt2 }

/-- C3: the headless baseline is first-write-wins — an already recorded
baseline is never overwritten by a later non-immediate update; two
successive `updateSelected(x, false)` calls keep the original pre-edit
annotation as the baseline, and the eventual commit reports a value
clone of that original as the previous value of the updated callback. -/
theorem c3_baseline_first_write_wins (s : ControllerState) (n m : Nat) (a b x y : Annotation)
    (hs : s.selectedAnnotation = some a) (hy : y.isSelection = false) :
    (s.beforeHeadlessModify = some b →
      ( updateSelected s n x false).state =
        { s with selectedAnnotation := some x, beforeHeadlessModify := some b }) ∧
    (s.beforeHeadlessModify = none →
      updateSelected ( updateSelected s n x false).state n y false =
        { state :=
            { s with selectedAnnotation := some y, beforeHeadlessModify := some a },
          fresh := n, effects := [], resolved := true } ∧
      ( saveSelected { s with selectedAnnotation := some y, beforeHeadlessModify := some a }
          m).effects =
        [Effect.layerDeselect,
         Effect.layerAddOrUpdate (mergeOf s y m) (some a),
         Effect.evtAnnotationUpdated (mergeOf s y m)
           (SecondArg.previousClone ( Annotation.clone a (m + 1)))] ∧
      Annotation.isEqual ( Annotation.clone a (m + 1)) a = true) := by
  constructor
  · intro hb
    simp [updateSelected, hs, hb]
  · intro hb
    refine ⟨?_, ?_, clone_isEqual a (m + 1)⟩
    · simp [updateSelected, hs, hb]
    · simp [saveSelected, updateSelected, onCreateOrUpdateAnnotation, hy,
        Step.resolvedOutcome, mergeOf]

/-- C3 witness: the two successive non-immediate updates on the concrete
state leave the original annotation as the recorded baseline. -/
theorem c3_baseline_instance :
    updateSelected ( updateSelected stAnn1 10 ann2 false).state 10 ann2 false =
      { state :=
          { stAnn1 with selectedAnnotation := some ann2, beforeHeadlessModify := some ann1 },
        fresh := 10, effects := [], resolved := true } :=
  ((c3_baseline_first_write_wins stAnn1 10 20 ann1 ann1 ann2 ann2
      (by decide) (by decide)).2 (by decide)).1

/-- C4 counterexample: a commit through `updateSelected(x, true)` commits
the supplied annotation, not the selected one — with `ann1` selected and
no pending target the committed value is a clone of the supplied `ann2`,
which is not structurally equal to a clone of the selected `ann1`. -/
theorem c4_counterexample_supplied_argument :
    ( updateSelected stAnn1 10 ann2 true).effects =
      [Effect.layerDeselect,
       Effect.layerAddOrUpdate ( Annotation.clone ann2 10) (some ann1),
       Effect.evtAnnotationUpdated ( Annotation.clone ann2 10)
         (SecondArg.previousClone ( Annotation.clone ann1 11))] ∧
    Annotation.isEqual ( Annotation.clone ann2 10) ( Annotation.clone ann1 10) = false := by
  decide

/-- C4 amended: every commit derives the committed value from the
commit's annotation argument — for `saveSelected` that argument is the
selected annotation (cloned with the pending modified target when one is
set, else cloned as-is; drafts promoted first), while `updateSelected`
and editor-driven commits pass their supplied annotation through the
same merge. -/
theorem c4_merge_precedence :
    (∀ (s : ControllerState) (n : Nat) (a : Annotation) (t : Target),
        s.selectedAnnotation = some a → a.isSelection = false →
        s.beforeHeadlessModify = none → s.modifiedTarget = some t →
        ( saveSelected s n).effects =
          [Effect.layerDeselect,
           Effect.layerAddOrUpdate ( Annotation.cloneWithTarget a t n) (some a),
           Effect.evtAnnotationUpdated ( Annotation.cloneWithTarget a t n)
             (SecondArg.previousClone ( Annotation.clone a (n + 1)))]) ∧
    (∀ (s : ControllerState) (n : Nat) (a b : Annotation),
        s.selectedAnnotation = some a → a.isSelection = false →
        s.beforeHeadlessModify = some b → s.modifiedTarget = none →
        ( saveSelected s n).effects =
          [Effect.layerDeselect,
           Effect.layerAddOrUpdate ( Annotation.clone a n) (some b),
           Effect.evtAnnotationUpdated ( Annotation.clone a n)
             (SecondArg.previousClone ( Annotation.clone b (n + 1)))]) ∧
    (∀ (s : ControllerState) (n : Nat) (a : Annotation),
        s.selectedAnnotation = some a → a.isSelection = true →
        s.modifiedTarget = none →
        (( saveSelected s n).effects)[1]? =
          some (Effect.layerAddOrUpdate
            ( Annotation.clone ( Annotation.toAnnotation a) n) (some a))) ∧
    (∀ (m : Method) (s : ControllerState) (n : Nat) (ann : Annotation)
        (previous : Option Annotation),
        (( onCreateOrUpdateAnnotation m s n ann previous).effects)[1]? =
          some (Effect.layerAddOrUpdate
            (mergeOf s (if ann.isSelection then ann.toAnnotation else ann) n) previous)) := by
  refine ⟨?_, ?_, ?_, ?_⟩
  · intro s n a t hs hd hb hm
    simp [saveSelected, hs, hd, hb, hm, onCreateOrUpdateAnnotation, mergeOf,
      Step.resolvedOutcome]
  · intro s n a b hs hd hb hm
    simp [saveSelected, hs, hd, hb, hm, onCreateOrUpdateAnnotation, mergeOf,
      Step.resolvedOutcome]
  · intro s n a hs hd hm
    simp [saveSelected, hs, hd, hm, onCreateOrUpdateAnnotation, mergeOf,
      Annotation.toAnnotation, Step.resolvedOutcome]
  · intro m s n ann previous
    cases previous <;> cases m <;> simp [ onCreateOrUpdateAnnotation]

/-- C4 witness: the amended statement applied to the concrete state with
a pending modified target. -/
theorem c4_merge_precedence_instance :
    ( saveSelected stAnn1Target 10).effects =
      [Effect.layerDeselect,
       Effect.layerAddOrUpdate ( Annotation.cloneWithTarget ann1 tgt2 10) (some ann1),
       Effect.evtAnnotationUpdated ( Annotation.cloneWithTarget ann1 tgt2 10)
         (SecondArg.previousClone ( Annotation.clone ann1 11))] :=
  c4_merge_precedence.1 stAnn1Target 10 ann1 tgt2 (by decide) (by decide) (by decide) (by decide)

/-- C5: with no current selection, `saveSelected` is a no-op that does
resolve, but `updateSelected` is a no-op whose promise is never resolved
(the source has no else branch calling resolve) — contradicting the
documented defined-no-op behaviour. -/
theorem c5_no_selection_promise :
    saveSelected stIdle 10 = { state := stIdle, fresh := 10, effects := [], resolved := true } ∧
    updateSelected stIdle 10 ann2 false =
      { state := stIdle, fresh := 10, effects := [], resolved := false } ∧
    updateSelected stIdle 10 ann2 true =
      { state := stIdle, fresh := 10, effects := [], resolved := false } := by
  decide

/-- C6: with the editor enabled, a select event for an annotation that
differs from the current selection first fires exactly one cancelled
callback for the previous selection (and neither a created nor an
updated callback), and only then applies the new selection and fires its
selection callback (unless the event requests silence). -/
theorem c6_switch_finalizes_previous (s : ControllerState) (n : Nat) (prev b : Annotation)
    (el : Option Nat) (sk : Bool)
    (hmode : s.editorDisabled = false)
    (hs : s.selectedAnnotation = some prev)
    (hne : Annotation.isEqual prev b = false) :
    handleSelect s n { annotation := some b, element := el, skipEvent := sk } =
      { state :=
          { s with selectedAnnotation := some b, selectedDOMElement := el,
                   modifiedTarget := none, beforeHeadlessModify := none },
        fresh := if sk then n else n + 1,
        effects := Effect.evtCancelSelected prev ::
          (if sk then []
           else if b.isSelection then [Effect.evtSelectionCreated ( Annotation.clone b n)]
           else [Effect.evtAnnotationSelected ( Annotation.clone b n)]) } ∧
    ( handleSelect s n { annotation := some b, element := el, skipEvent := sk }).effects.filter
        isCancelEvt = [Effect.evtCancelSelected prev] ∧
    ( handleSelect s n { annotation := some b, element := el, skipEvent := sk }).effects.any
        isCreatedEvt = false ∧
    ( handleSelect s n { annotation := some b, element := el, skipEvent := sk }).effects.any
        isUpdatedEvt = false := by
  have he : handleSelect s n { annotation := some b, element := el, skipEvent := sk } =
      { state :=
          { s with selectedAnnotation := some b, selectedDOMElement := el,
                   modifiedTarget := none, beforeHeadlessModify := none },
        fresh := if sk then n else n + 1,
        effects := Effect.evtCancelSelected prev ::
          (if sk then []
           else if b.isSelection then [Effect.evtSelectionCreated ( Annotation.clone b n)]
           else [Effect.evtAnnotationSelected ( Annotation.clone b n)]) } := by
    cases sk <;> cases hbs : b.isSelection <;>
      simp [handleSelect, hmode, onNormalSelect, hs, hne, hbs]
  refine ⟨he, ?_, ?_, ?_⟩ <;> rw [he] <;>
    cases sk <;> cases hbs : b.isSelection <;>
      simp [isCancelEvt, isCreatedEvt, isUpdatedEvt, hbs]

/-- C6 witness: switching from the selected annotation to a different one
on the concrete state fires exactly one cancelled callback for the
previous selection. -/
theorem c6_switch_instance :
    ( handleSelect stAnn1 10
        { annotation := some ann2, element := some 6, skipEvent := false }).effects.filter
      isCancelEvt = [Effect.evtCancelSelected ann1] :=
  (c6_switch_finalizes_previous stAnn1 10 ann1 ann2 (some 6) false
    (by decide) (by decide) (by decide)).2.1

/-- C7 counterexample: the headless Escape handler clears the state and
deselects in the layer, but fires no cancelled callback at all — the
effect list of the Escape transition contains no cancellation event. -/
theorem c7_counterexample_escape_fires_nothing :
    headlessCancel stAnn1Headless 10 27 =
      { state := clearState stAnn1Headless, fresh := 10, effects := [Effect.layerDeselect] } ∧
    ( headlessCancel stAnn1Headless 10 27).effects.any isCancelEvt = false := by
  decide

/-- C7 amended: in headless mode an Escape key press clears the
controller state and deselects in the Annotation Layer, but fires no
cancellation event — the previous selection is dropped silently. -/
theorem c7_escape_clears_silently (s : ControllerState) (n : Nat) (a : Annotation)
    (_hmode : s.editorDisabled = true) (_hs : s.selectedAnnotation = some a) :
    headlessCancel s n 27 =
      { state := clearState s, fresh := n, effects := [Effect.layerDeselect] } ∧
    ( headlessCancel s n 27).effects.any isCancelEvt = false := by
  constructor
  · simp [headlessCancel]
  · simp [headlessCancel, isCancelEvt]

/-- C7 witness: the amended statement applied to the concrete headless
state. -/
theorem c7_escape_instance :
    headlessCancel stAnn1Headless 20 27 =
      { state := clearState stAnn1Headless, fresh := 20, effects := [Effect.layerDeselect] } :=
  (c7_escape_clears_silently stAnn1Headless 20 ann1 (by decide) (by decide)).1

/-- C8 counterexample: a select event carrying the annotation already
selected (structurally equal) with skipEvent false makes the controller
re-fire the selection-opened callback — the claim that no selection
event is re-fired fails. -/
theorem c8_counterexample_refires_selection :
    ( onNormalSelect stAnn1 10
        { annotation := some ann1, element := some 6, skipEvent := false }).effects =
      [Effect.evtAnnotationSelected ( Annotation.clone ann1 10)] ∧
    ( onNormalSelect stAnn1 10
        { annotation := some ann1, element := some 6, skipEvent := false }).effects.any
      isSelectionEvt = true := by
  decide

/-- C8 amended: a select event for an annotation structurally equal to
the current selection fires no cancellation event; the selection state
is re-applied (element updated, pending target and baseline reset), and
the selection callback is re-fired unless the event carries skipEvent —
only a silent event avoids re-firing. -/
theorem c8_reselect_equal (s : ControllerState) (n : Nat) (a b : Annotation)
    (el : Option Nat) (sk : Bool)
    (hs : s.selectedAnnotation = some a) (heq : Annotation.isEqual a b = true) :
    onNormalSelect s n { annotation := some b, element := el, skipEvent := sk } =
      { state :=
          { s with selectedAnnotation := some b, selectedDOMElement := el,
                   modifiedTarget := none, beforeHeadlessModify := none },
        fresh := if sk then n else n + 1,
        effects := if sk then []
          else if b.isSelection then [Effect.evtSelectionCreated ( Annotation.clone b n)]
          else [Effect.evtAnnotationSelected ( Annotation.clone b n)] } ∧
    ( onNormalSelect s n { annotation := some b, element := el, skipEvent := sk }).effects.any
        isCancelEvt = false := by
  have he : onNormalSelect s n { annotation := some b, element := el, skipEvent := sk } =
      { state :=
          { s with selectedAnnotation := some b, selectedDOMElement := el,
                   modifiedTarget := none, beforeHeadlessModify := none },
        fresh := if sk then n else n + 1,
        effects := if sk then []
          else if b.isSelection then [Effect.evtSelectionCreated ( Annotation.clone b n)]
          else [Effect.evtAnnotationSelected ( Annotation.clone b n)] } := by
    cases sk <;> cases hbs : b.isSelection <;>
      simp [onNormalSelect, hs, heq, hbs]
  refine ⟨he, ?_⟩
  rw [he]
  cases sk <;> cases hbs : b.isSelection <;> simp [isCancelEvt, hbs]

/-- C8 witness: a silent re-select of the already selected annotation on
the concrete state fires no cancellation event. -/
theorem c8_reselect_instance :
    ( onNormalSelect stAnn1 10
        { annotation := some ann1, element := some 6, skipEvent := true }).effects.any
      isCancelEvt = false :=
  (c8_reselect_equal stAnn1 10 ann1 ann1 (some 6) true (by decide) (by decide)).2

/-- Nat.ble holds reflexively; small helper for freshness computations. -/
theorem ble_self_true (n : Nat) : Nat.ble n n = true := by
  simp [Nat.ble_eq]

/-- Nat.ble holds for the successor; small helper for freshness
computations. -/
theorem ble_succ_true (n : Nat) : Nat.ble n (n + 1) = true := by
  simp [Nat.ble_eq]

/-- C9 counterexample: the headless no-change commit fires the cancelled
callback with the very annotation object stored in the controller state
(object identity 3, allocated before the fresh counter 10) — not a deep
clone — so the claim that every lifecycle callback receives a deep-cloned
value fails. -/
theorem c9_counterexample_cancel_shares_state :
    ( saveSelected stAnn1Headless 10).effects = [Effect.evtCancelSelected ann1] ∧
    eventsCloned 10 ( saveSelected stAnn1Headless 10).effects = false ∧
    stAnn1Headless.selectedAnnotation = some ann1 ∧ ann1.ref = 3 := by
  decide

/-- C9 amended: the created, updated, selection, target-changed and hover
callbacks all receive freshly allocated (deep-cloned) values, but the
cancelled callback receives the controller's stored annotation object
itself and the deleted callback receives its argument object itself,
both uncloned. -/
theorem c9_callback_payload_cloning :
    (∀ (m : Method) (s : ControllerState) (n : Nat) (ann : Annotation)
        (previous : Option Annotation),
        eventsCloned n ( onCreateOrUpdateAnnotation m s n ann previous).effects = true) ∧
    (∀ (s : ControllerState) (n : Nat) (oann : Option Annotation) (el : Option Nat) (sk : Bool),
        eventsCloned n
          ((( onNormalSelect s n
              { annotation := oann, element := el, skipEvent := sk }).effects).filter
            fun e => !isCancelEvt e) = true) ∧
    (∀ (s : ControllerState) (n : Nat) (oann : Option Annotation) (el : Option Nat) (sk : Bool)
        (a : Annotation), s.selectedAnnotation = some a →
        (( onNormalSelect s n
            { annotation := oann, element := el, skipEvent := sk }).effects).filter
          isCancelEvt = [] ∨
        (( onNormalSelect s n
            { annotation := oann, element := el, skipEvent := sk }).effects).filter
          isCancelEvt = [Effect.evtCancelSelected a]) ∧
    (∀ (s : ControllerState) (n : Nat) (a : Annotation),
        (( onCancelAnnotation s n a).effects).filter isCancelEvt =
          [Effect.evtCancelSelected a]) ∧
    (∀ (s : ControllerState) (n : Nat) (a : Annotation),
        ( onDeleteAnnotation s n a).effects =
          [Effect.layerRemove a, Effect.evtAnnotationDeleted a]) ∧
    (∀ (s : ControllerState) (n : Nat) (el : Option Nat) (t : Target),
        eventsCloned n ( handleUpdateTarget s n el t).effects = true) ∧
    (∀ (s : ControllerState) (n : Nat) (a : Annotation),
        eventsCloned n ( handleMouseEnter s n a).effects = true) ∧
    (∀ (s : ControllerState) (n : Nat) (a : Annotation),
        eventsCloned n ( handleMouseLeave s n a).effects = true) := by
  refine ⟨?_, ?_, ?_, ?_, ?_, ?_, ?_, ?_⟩
  · intro m s n ann previous
    cases previous <;> cases m <;> cases hmt : s.modifiedTarget <;>
      simp [ onCreateOrUpdateAnnotation, eventsCloned, eventRefs, annRefs, secondArgRefs,
        mergeOf, hmt, Annotation.clone, Annotation.cloneWithTarget,
        ble_self_true, ble_succ_true]
  · intro s n oann el sk
    cases oann with
    | none =>
        cases hsa : s.selectedAnnotation <;>
          simp [onNormalSelect, hsa, eventsCloned, isCancelEvt]
    | some b =>
        cases hsa : s.selectedAnnotation with
        | none =>
            cases sk <;> cases hbs : b.isSelection <;>
              simp [onNormalSelect, hsa, hbs, eventsCloned, eventRefs, annRefs,
                Annotation.clone, isCancelEvt, ble_self_true]
        | some prev =>
            cases hpe : Annotation.isEqual prev b <;>
              cases sk <;> cases hbs : b.isSelection <;>
                simp [onNormalSelect, hsa, hbs, hpe, eventsCloned, eventRefs, annRefs,
                  Annotation.clone, isCancelEvt, ble_self_true]
  · intro s n oann el sk a hsa
    cases oann with
    | none =>
        simp [onNormalSelect, hsa, isCancelEvt]
    | some b =>
        cases hpe : Annotation.isEqual a b <;>
          cases sk <;> cases hbs : b.isSelection <;>
            simp [onNormalSelect, hsa, hpe, hbs, isCancelEvt]
  · intro s n a
    cases hed : s.editorDisabled <;> simp [ onCancelAnnotation, hed, isCancelEvt]
  · intro s n a
    simp [ onDeleteAnnotation]
  · intro s n el t
    simp [handleUpdateTarget, eventsCloned, eventRefs, ble_self_true]
  · intro s n a
    simp [handleMouseEnter, eventsCloned, eventRefs, annRefs, Annotation.clone, ble_self_true]
  · intro s n a
    simp [handleMouseLeave, eventsCloned, eventRefs, annRefs, Annotation.clone, ble_self_true]

/-- C9 witness: on the concrete draft state the created callback payloads
of a commit are all freshly allocated. -/
theorem c9_cloning_instance :
    eventsCloned 10
      ( onCreateOrUpdateAnnotation Method.created stDraft 10 draft1 (some draft1)).effects =
      true :=
  c9_callback_payload_cloning.1 Method.created stDraft 10 draft1 (some draft1)

/-- clearState leaves the headless-mode flag untouched. -/
theorem clearState_editorDisabled (s : ControllerState) :
    (clearState s).editorDisabled = s.editorDisabled := rfl

/-- C10: every finalizing transition (commit, cancel, delete, headless
Escape, id override with an open selection) yields exactly `clearState`
of the pre-state — all four selection fields reset together — and no
modelled transition except the `disableEditor` setter changes the
`editorDisabled` flag. -/
theorem c10_finalize_clears_and_mode_frame :
    (∀ (m : Method) (s : ControllerState) (n : Nat) (ann : Annotation)
        (previous : Option Annotation),
        ( onCreateOrUpdateAnnotation m s n ann previous).state = clearState s) ∧
    (∀ (s : ControllerState) (n : Nat) (a : Annotation),
        ( onCancelAnnotation s n a).state = clearState s) ∧
    (∀ (s : ControllerState) (n : Nat) (a : Annotation),
        ( onDeleteAnnotation s n a).state = clearState s) ∧
    (∀ (s : ControllerState) (n : Nat), ( headlessCancel s n 27).state = clearState s) ∧
    (∀ (s : ControllerState) (n : Nat) (orig : Annotation) (fid : Nat),
        s.selectedAnnotation.isSome = true →
        ( overrideAnnotationId s n orig fid).state = clearState s) ∧
    (∀ (s : ControllerState), clearState s =
      { selectedAnnotation := none, selectedDOMElement := none, modifiedTarget := none,
        editorDisabled := s.editorDisabled, beforeHeadlessModify := none }) ∧
    (∀ (s : ControllerState) (n : Nat) (evt : SelectEvent),
        (( onNormalSelect s n evt).state).editorDisabled = s.editorDisabled) ∧
    (∀ (s : ControllerState) (n : Nat) (evt : SelectEvent),
        (( onHeadlessSelect s n evt).state).editorDisabled = s.editorDisabled) ∧
    (∀ (s : ControllerState) (n : Nat) (evt : SelectEvent),
        (( handleSelect s n evt).state).editorDisabled = s.editorDisabled) ∧
    (∀ (s : ControllerState) (n : Nat) (el : Option Nat) (t : Target),
        (( handleUpdateTarget s n el t).state).editorDisabled = s.editorDisabled) ∧
    (∀ (s : ControllerState) (n : Nat) (a : Annotation),
        (( handleMouseEnter s n a).state).editorDisabled = s.editorDisabled ∧
        (( handleMouseLeave s n a).state).editorDisabled = s.editorDisabled) ∧
    (∀ (s : ControllerState) (n : Nat),
        (( saveSelected s n).state).editorDisabled = s.editorDisabled) ∧
    (∀ (s : ControllerState) (n : Nat) (ann : Annotation) (imm : Bool),
        (( updateSelected s n ann imm).state).editorDisabled = s.editorDisabled) ∧
    (∀ (s : ControllerState) (n : Nat),
        (( cancelSelected s n).state).editorDisabled = s.editorDisabled) ∧
    (∀ (s : ControllerState) (n w : Nat),
        (( headlessCancel s n w).state).editorDisabled = s.editorDisabled) ∧
    (∀ (s : ControllerState) (n : Nat) (orig : Annotation) (fid : Nat),
        (( overrideAnnotationId s n orig fid).state).editorDisabled = s.editorDisabled) ∧
    (∀ (s : ControllerState) (b : Bool), ( setDisableEditor s b).editorDisabled = b) := by
  have hsave : ∀ (s : ControllerState) (n : Nat),
      (( saveSelected s n).state).editorDisabled = s.editorDisabled := by
    intro s n
    cases hsa : s.selectedAnnotation with
    | none => simp [saveSelected, hsa]
    | some a =>
        cases hd : a.isSelection <;> cases hb : s.beforeHeadlessModify <;>
          cases hm : s.modifiedTarget <;>
            simp [saveSelected, hsa, hd, hb, hm, onCreateOrUpdateAnnotation,
              onCancelAnnotation, Step.resolvedOutcome, clearState]
  have hnorm : ∀ (s : ControllerState) (n : Nat) (evt : SelectEvent),
      (( onNormalSelect s n evt).state).editorDisabled = s.editorDisabled := by
    intro s n evt
    obtain ⟨oann, el, sk⟩ := evt
    cases oann with
    | none => cases hsa : s.selectedAnnotation <;> simp [onNormalSelect, hsa, clearState]
    | some b =>
        cases hsa : s.selectedAnnotation with
        | none =>
            cases sk <;> cases hbs : b.isSelection <;> simp [onNormalSelect, hsa, hbs]
        | some prev =>
            cases hpe : Annotation.isEqual prev b <;>
              cases sk <;> cases hbs : b.isSelection <;>
                simp [onNormalSelect, hsa, hpe, hbs]
  have hheadless : ∀ (s : ControllerState) (n : Nat) (evt : SelectEvent),
      (( onHeadlessSelect s n evt).state).editorDisabled = s.editorDisabled := by
    intro s n evt
    have h1 := hsave s n
    have h2 := hnorm ( saveSelected s n).state ( saveSelected s n).fresh evt
    simp [onHeadlessSelect]
    rw [h2, h1]
  refine ⟨?_, ?_, ?_, ?_, ?_, ?_, hnorm, hheadless, ?_, ?_, ?_, hsave, ?_, ?_, ?_, ?_, ?_⟩
  · intro m s n ann previous
    cases previous <;> cases m <;> simp [ onCreateOrUpdateAnnotation]
  · intro s n a
    simp [ onCancelAnnotation]
  · intro s n a
    simp [ onDeleteAnnotation]
  · intro s n
    simp [headlessCancel]
  · intro s n orig fid h
    simp [overrideAnnotationId, h]
  · intro s
    simp [clearState]
  · intro s n evt
    cases hed : s.editorDisabled <;>
      simp [handleSelect, hed, hnorm s n evt]
    · exact (hheadless s n evt).trans hed
  · intro s n el t
    simp [handleUpdateTarget]
  · intro s n a
    exact ⟨rfl, rfl⟩
  · intro s n ann imm
    cases hsa : s.selectedAnnotation with
    | none => simp [updateSelected, hsa]
    | some sel =>
        cases imm <;> cases hd : sel.isSelection <;>
          simp [updateSelected, hsa, hd, onCreateOrUpdateAnnotation,
            Step.resolvedOutcome, clearState]
  · intro s n
    cases hsa : s.selectedAnnotation <;>
      simp [cancelSelected, hsa, onCancelAnnotation, clearState]
  · intro s n w
    cases hw : w == 27 <;> simp [headlessCancel, hw, clearState]
  · intro s n orig fid
    cases hsel : s.selectedAnnotation.isSome <;>
      simp [overrideAnnotationId, hsel, clearState]
  · intro s b
    simp [setDisableEditor]

/-- C10 witness: the id override with an open selection on the concrete
state clears the controller state. -/
theorem c10_override_instance :
    ( overrideAnnotationId stAnn1 10 ann1 99).state = clearState stAnn1 :=
  c10_finalize_clears_and_mode_frame.2.2.2.2.1 stAnn1 10 ann1 99 (by decide)
